import Mathlib

/-!
Verification of the Quiz-Platform backend (Flask + SQLAlchemy) against its
natural-language specification.

The relevant routes and utilities are shallowly embedded:
* `src/backend/models/database.py` — the persisted entities (`Subject`,
  `Chapter`, `Quiz`, `Question`, `Score`, `User`) become Lean structures and
  the database becomes an explicit `DB` record of row lists.
* `src/backend/routes/quiz.py` `submit_quiz_attempt` — v2 attempt submission.
* `src/backend/routes/auth.py` `submit_quiz` — legacy v1 submission.
* `src/backend/routes/admin.py` `delete_subject` / `delete_chapter` /
  `delete_quiz` and `import_subjects_csv`.
* `src/backend/auth/jwt_utils.py` `get_token_from_request` / `jwt_required`.
* `src/backend/utils/cache.py` `cached_response` key construction,
  `flush_pattern` and `invalidate_model_cache`.
* `src/backend/models/serializer.py` `SerializerMixin.to_dict` / `from_dict`
  and the `User.to_dict` override.

Python floats are modelled as exact rationals (`ℚ`); the arithmetic the code
performs (`correct / total * 100`, `round(x, 2)`) is carried over verbatim.
Timestamps are abstract `Nat` instants.
-/

namespace QuizPlatform

/-! ## Data model (`src/backend/models/database.py`) -/

/-- A `Subject` row: surrogate id, required name, free-text description. -/
structure Subject where
  id : Nat
  name : String
  description : String
deriving DecidableEq, Repr

/-- A `Chapter` row: id, name, owning subject foreign key. -/
structure Chapter where
  id : Nat
  name : String
  subject_id : Nat
deriving DecidableEq, Repr

/-- A `Quiz` row: id and owning chapter foreign key (date/duration/remarks
are irrelevant to the verified properties and omitted). -/
structure Quiz where
  id : Nat
  chapter_id : Nat
deriving DecidableEq, Repr

/-- A `Question` row: id, the 1–4 correct-option index, owning quiz. -/
structure Question where
  id : Nat
  correct_option : Int
  quiz_id : Nat
deriving DecidableEq, Repr

/-- A `Score` row: id, owning user and quiz, percentage score
(`total_scored`, a Python float modelled as `ℚ`), attempt timestamp. -/
structure Score where
  id : Nat
  user_id : Nat
  quiz_id : Nat
  total_scored : ℚ
  time_stamp_of_attempt : Nat
deriving DecidableEq, Repr

/-- The relational store: one list of rows per table. -/
structure DB where
  subjects : List Subject
  chapters : List Chapter
  quizzes : List Quiz
  questions : List Question
  scores : List Score
deriving DecidableEq, Repr

/-- The empty database. -/
def DB.empty : DB := ⟨[], [], [], [], []⟩

/-! ## v2 attempt submission (`src/backend/routes/quiz.py`,
`submit_quiz_attempt`) -/

/-- Look up the submitted option for a question id in the answer map.
The Python handler indexes `answers` (a JSON object) by `str(question.id)`
and coerces the value with `int(...)`; `str` is injective on ids, so the map
is modelled with `Nat` keys and `Int` values. -/
def lookupAnswer (answers : List (Nat × Int)) (qid : Nat) : Option Int :=
  List.lookup qid answers

/-- The loop of `submit_quiz_attempt` lines 252–257: a question counts as
correct when the user answered it and the submitted option equals
`question.correct_option`. -/
def countCorrect (questions : List Question) (answers : List (Nat × Int)) : Nat :=
  questions.countP fun q =>
    match lookupAnswer answers q.id with
    | some v => v == q.correct_option
    | none => false

/-- Outcome of the v2 attempt-submission handler. -/
inductive SubmitV2Result where
  /-- Status 400, "No answers provided" (no body, or no answers key in it). -/
  | noAnswers
  /-- Status 404, "Quiz not found". -/
  | quizNotFound
  /-- Status 400, "You have already attempted this quiz", carrying the existing
  score value and its attempt timestamp. -/
  | alreadyAttempted (score : ℚ) (attemptDate : Nat)
  /-- Status 404, "No questions found for this quiz". -/
  | noQuestions
  /-- Status 200, success with the aggregate score payload. -/
  | success (totalQuestions correctAnswers : Nat) (percentage : ℚ) (scoreId : Nat)
deriving DecidableEq, Repr

/-- The HTTP status code each outcome is returned with. -/
def SubmitV2Result.status : SubmitV2Result → Nat
  | .noAnswers => 400
  | .quizNotFound => 404
  | .alreadyAttempted _ _ => 400
  | .noQuestions => 404
  | .success _ _ _ _ => 200

/-- Model of `submit_quiz_attempt` (quiz.py lines 215–304).  Here `answers = none` models a
request body without an answers key.  Here `now` is the commit-time
`datetime.utcnow()`; `newScoreId` the primary key the insert receives. -/
def submit_quiz_attempt (db : DB) (user_id quiz_id : Nat)
    (answers : Option (List (Nat × Int))) (now newScoreId : Nat) :
    SubmitV2Result × DB :=
  match answers with
  | none => (.noAnswers, db)
  | some ans =>
    match db.quizzes.find? (fun q => q.id == quiz_id) with
    | none => (.quizNotFound, db)
    | some _ =>
      match db.scores.find? (fun s => s.user_id == user_id && s.quiz_id == quiz_id) with
      | some existing =>
        (.alreadyAttempted existing.total_scored existing.time_stamp_of_attempt, db)
      | none =>
        let questions := db.questions.filter (fun q => q.quiz_id == quiz_id)
        if questions.isEmpty then (.noQuestions, db)
        else
          let total := questions.length
          let correct := countCorrect questions ans
          let pct : ℚ := if total > 0 then (correct : ℚ) / (total : ℚ) * 100 else 0
          (.success total correct pct newScoreId,
           { db with scores := db.scores ++ [⟨newScoreId, user_id, quiz_id, pct, now⟩] })

/-! ## Legacy v1 submission (`src/backend/routes/auth.py`, `submit_quiz`) -/

/-- Model of `submit_quiz` (auth.py lines 115–129).  The v1 answer map keeps its JSON
string values: a question is correct when
`str(q.correct_option) == answers.get(str(q.id))`.  The handler performs no
duplicate-attempt check and always inserts a new `Score` row; the returned
value is the computed `total_scored`. -/
def submit_quiz (db : DB) (user_id quiz_id : Nat)
    (answers : List (Nat × String)) (now newScoreId : Nat) : ℚ × DB :=
  let questions := db.questions.filter (fun q => q.quiz_id == quiz_id)
  let correct := questions.countP fun q =>
    match List.lookup q.id answers with
    | some v => toString q.correct_option == v
    | none => false
  let total_scored : ℚ :=
    if questions.isEmpty then 0 else (correct : ℚ) / (questions.length : ℚ) * 100
  (total_scored,
   { db with scores := db.scores ++ [⟨newScoreId, user_id, quiz_id, total_scored, now⟩] })

/-! ## Admin deletions (`src/backend/routes/admin.py`) -/

/-- Outcome of a delete handler. -/
inductive DeleteResult where
  /-- Status 404, "... not found". -/
  | notFound
  /-- Status 400, "Cannot delete ... with existing ...". -/
  | conflict
  /-- Status 200, "... deleted successfully". -/
  | deleted
deriving DecidableEq, Repr

/-- The HTTP status code each delete outcome is returned with. -/
def DeleteResult.status : DeleteResult → Nat
  | .notFound => 404
  | .conflict => 400
  | .deleted => 200

/-- The relationship `subject.chapters`: every chapter whose
`subject_id` references the subject. -/
def subjectChapters (db : DB) (sid : Nat) : List Chapter :=
  db.chapters.filter (fun c => c.subject_id == sid)

/-- The relationship `chapter.quizzes`: every quiz whose `chapter_id` references the chapter. -/
def chapterQuizzes (db : DB) (cid : Nat) : List Quiz :=
  db.quizzes.filter (fun q => q.chapter_id == cid)

/-- The relationship `quiz.scores`: every score whose `quiz_id` references the quiz. -/
def quizScores (db : DB) (qid : Nat) : List Score :=
  db.scores.filter (fun s => s.quiz_id == qid)

/-- Model of `delete_subject` (admin.py lines 291–315): 404 if absent, 400 with no
change while the subject owns chapters, otherwise the row is deleted. -/
def delete_subject (db : DB) (subject_id : Nat) : DeleteResult × DB :=
  match db.subjects.find? (fun s => s.id == subject_id) with
  | none => (.notFound, db)
  | some _ =>
    if (subjectChapters db subject_id).isEmpty then
      (.deleted, { db with subjects := db.subjects.eraseP (fun s => s.id == subject_id) })
    else (.conflict, db)

/-- Model of `delete_chapter` (admin.py lines 405–429). -/
def delete_chapter (db : DB) (chapter_id : Nat) : DeleteResult × DB :=
  match db.chapters.find? (fun c => c.id == chapter_id) with
  | none => (.notFound, db)
  | some _ =>
    if (chapterQuizzes db chapter_id).isEmpty then
      (.deleted, { db with chapters := db.chapters.eraseP (fun c => c.id == chapter_id) })
    else (.conflict, db)

/-- Model of `delete_quiz` (admin.py lines 508–532). -/
def delete_quiz (db : DB) (quiz_id : Nat) : DeleteResult × DB :=
  match db.quizzes.find? (fun q => q.id == quiz_id) with
  | none => (.notFound, db)
  | some _ =>
    if (quizScores db quiz_id).isEmpty then
      (.deleted, { db with quizzes := db.quizzes.eraseP (fun q => q.id == quiz_id) })
    else (.conflict, db)

/-! ## CSV import of subjects (`src/backend/routes/admin.py`,
`import_subjects_csv`, lines 590–652) -/

/-- One data row of the uploaded subjects CSV, as produced by
`csv.DictReader`: `name = none` models a missing `name` column,
`some ""` an empty one (both are falsy under the required-name check). -/
structure CsvRow where
  name : Option String
  description : Option String
deriving DecidableEq, Repr

/-- An ASCII single-quote character, used in the duplicate-name message. -/
def sq : String := String.mk [Char.ofNat 39]

/-- The per-row error for a missing name:
`f"Row {row_num}: Subject name is required"`. -/
def rowNameError (rowNum : Nat) : String :=
  s!"Row {rowNum}: Subject name is required"

/-- The per-row error for a duplicate name:
`f"Row {row_num}: Subject ... already exists"` (the name is quoted). -/
def rowDupError (rowNum : Nat) (name : String) : String :=
  s!"Row {rowNum}: Subject " ++ sq ++ name ++ sq ++ " already exists"

/-- Whether the name field of the row is truthy: present and non-empty. -/
def rowHasName (r : CsvRow) : Bool :=
  match r.name with
  | some s => s != ""
  | none => false

/-- The `for row_num, row in enumerate(csv_reader, start=2)` loop.
`subjectsSoFar` is the session-visible subject table (committed rows plus
rows added earlier in this batch — the ORM autoflushes pending inserts
before the `filter_by(name=...)` existence query).  Returns
`(imported_count, errors, final subject table)`. -/
def importSubjectRows (subjectsSoFar : List Subject) (rowNum nextId : Nat) :
    List CsvRow → Nat × List String × List Subject
  | [] => (0, [], subjectsSoFar)
  | r :: rest =>
    match r.name with
    | none =>
      let rec1 := importSubjectRows subjectsSoFar (rowNum + 1) nextId rest
      (rec1.1, rowNameError rowNum :: rec1.2.1, rec1.2.2)
    | some nm =>
      if nm = "" then
        let rec1 := importSubjectRows subjectsSoFar (rowNum + 1) nextId rest
        (rec1.1, rowNameError rowNum :: rec1.2.1, rec1.2.2)
      else if (subjectsSoFar.find? (fun s => s.name == nm)).isSome then
        let rec1 := importSubjectRows subjectsSoFar (rowNum + 1) nextId rest
        (rec1.1, rowDupError rowNum nm :: rec1.2.1, rec1.2.2)
      else
        let rec1 :=
          importSubjectRows (subjectsSoFar ++ [⟨nextId, nm, (r.description).getD ""⟩])
            (rowNum + 1) (nextId + 1) rest
        (rec1.1 + 1, rec1.2.1, rec1.2.2)

/-- Model of `import_subjects_csv`: iterate the data rows (numbered from 2, row 1
being the header), then `db.session.commit()` once at the end.  Returns the
response pair `(imported_count, errors)` and the committed database. -/
def import_subjects_csv (db : DB) (rows : List CsvRow) (nextId : Nat) :
    (Nat × List String) × DB :=
  let rec1 := importSubjectRows db.subjects 2 nextId rows
  ((rec1.1, rec1.2.1), { db with subjects := rec1.2.2 })

/-! ## Token extraction and the require-token guard
(`src/backend/auth/jwt_utils.py`) -/

/-- Helper for `pySplit`: walk the characters, accumulating the current
word (reversed); whitespace ends a word, and empty fragments between
consecutive whitespace characters are dropped. -/
def pySplitChars : List Char → List Char → List String
  | [], cur => if cur.isEmpty then [] else [String.mk cur.reverse]
  | c :: cs, cur =>
    if c.isWhitespace then
      if cur.isEmpty then pySplitChars cs []
      else String.mk cur.reverse :: pySplitChars cs []
    else pySplitChars cs (c :: cur)

/-- Python `str.split()` with no separator: split on whitespace runs,
discarding empty fragments (so leading/trailing whitespace yields
nothing). -/
def pySplit (s : String) : List String :=
  pySplitChars s.data []

/-- Python `str.lower()`, restricted to the ASCII folding the `Bearer`
comparison relies on. -/
def pyLower (s : String) : String :=
  String.mk (s.data.map Char.toLower)

/-- Model of `get_token_from_request` (jwt_utils.py lines 85–100): `none` models an
absent `Authorization` header; an empty header value is falsy and also
yields no token.  Otherwise the header must split into exactly two
whitespace-separated parts with the first equal to `Bearer`
case-insensitively. -/
def get_token_from_request (auth_header : Option String) : Option String :=
  match auth_header with
  | none => none
  | some h =>
    if h == "" then none
    else
      match pySplit h with
      | [p0, p1] => if pyLower p0 == "bearer" then some p1 else none
      | _ => none

/-- Result of decoding a JWT: the claim payload (`sub` and the optional
`admin` flag), or the exception class `jwt.decode` raised
(`ExpiredSignatureError`, else any other `InvalidTokenError`). -/
inductive DecodeOutcome where
  | ok (sub : Option Nat) (admin : Bool)
  | expired
  | invalid
deriving DecidableEq, Repr

/-- What the `jwt_required` decorator does before (or instead of) calling
the wrapped view. -/
inductive GuardResult where
  /-- A 401 rejection with the given message body. -/
  | err (status : Nat) (message : String)
  /-- The wrapped view runs with `g.user_id` / `g.is_admin` set. -/
  | proceed (sub : Option Nat) (is_admin : Bool)
deriving DecidableEq, Repr

/-- Model of `jwt_required` (jwt_utils.py lines 102–132), with the verifying
`jwt.decode` abstracted as a function from token text to outcome. -/
def jwt_required (auth_header : Option String)
    (decode : String → DecodeOutcome) : GuardResult :=
  match get_token_from_request auth_header with
  | none => .err 401 "Missing authorization token"
  | some token =>
    match decode token with
    | .ok sub admin => .proceed sub admin
    | .expired => .err 401 "Token has expired"
    | .invalid => .err 401 "Invalid token"

/-! ## Response cache (`src/backend/utils/cache.py`) -/

/-- Redis `KEYS`-style glob matching restricted to the `*` wildcard (the
only metacharacter the invalidation patterns use), written with an explicit
fuel so it is structurally recursive.  Every step shrinks
`pattern.length + key.length`, so `globMatch` below always supplies enough
fuel and the `0` case is unreachable. -/
def globMatchFuel : Nat → List Char → List Char → Bool
  | 0, _, _ => false
  | _ + 1, [], s => s.isEmpty
  | fuel + 1, '*' :: ps, [] => globMatchFuel fuel ps []
  | fuel + 1, '*' :: ps, c :: cs =>
    globMatchFuel fuel ps (c :: cs) || globMatchFuel fuel ('*' :: ps) cs
  | _ + 1, _ :: _, [] => false
  | fuel + 1, p :: ps, c :: cs => p == c && globMatchFuel fuel ps cs

/-- Glob matching with adequate fuel. -/
def globMatch (pat s : List Char) : Bool :=
  globMatchFuel (pat.length + s.length + 1) pat s

/-- Model of `RedisCache.flush_pattern` (cache.py lines 57–70): delete every cached
key matching the glob pattern; the cache is modelled by its key set. -/
def flush_pattern (keys : List String) (pat : String) : List String :=
  keys.filter (fun k => !(globMatch pat.data k.data))

/-- The cache key built by the `cached_response` decorator (cache.py lines
88–101): prefix, function name, each positional argument, each keyword
argument and query parameter as `name=value` (the latter two in sorted
order, supplied here already sorted). -/
def cachedResponseKey (kp fname : String) (args : List String)
    (kwargs qparams : List (String × String)) : String :=
  let base := kp ++ ":" ++ fname
  let base := args.foldl (fun acc a => acc ++ ":" ++ a) base
  let base := kwargs.foldl (fun acc kv => acc ++ ":" ++ kv.1 ++ "=" ++ kv.2) base
  qparams.foldl (fun acc kv => acc ++ ":" ++ kv.1 ++ "=" ++ kv.2) base

/-- Python truthiness of the optional integer `model_id` argument. -/
def pyTruthyNat : Option Nat → Bool
  | some n => n != 0
  | none => false

/-- Model of `invalidate_model_cache` (cache.py lines 120–141): flush
`view:*<model>*:<id>*` when an id is given, then `view:*<model>*`, then the
hard-coded `view:get_user_quiz_dashboard*`. -/
def invalidate_model_cache (keys : List String) (model_name : String)
    (model_id : Option Nat) : List String :=
  let keys :=
    if pyTruthyNat model_id then
      flush_pattern keys ("view:*" ++ model_name ++ "*:" ++ toString (model_id.getD 0) ++ "*")
    else keys
  let keys := flush_pattern keys ("view:*" ++ model_name ++ "*")
  flush_pattern keys "view:get_user_quiz_dashboard*"

/-! ## Progress endpoint (`src/backend/routes/quiz_history.py`,
`get_user_progress`, lines 155–198) -/

/-- The Python builtin `round(q, 2)`: round to two decimals, ties to even
(banker rounding). -/
def roundHalfEven2 (q : ℚ) : ℚ :=
  let x := q * 100
  let f : ℤ := ⌊x⌋
  let frac := x - (f : ℚ)
  let n : ℤ :=
    if frac < 1/2 then f
    else if frac > 1/2 then f + 1
    else if Even f then f else f + 1
  (n : ℚ) / 100

/-- The payload of a successful progress response (the timeline entries are
per-score projections and carry no extra information). -/
structure ProgressPayload where
  total_attempts : Nat
  improvement : ℚ
  improvement_percentage : ℚ
deriving DecidableEq, Repr

/-- Outcome of the progress handler. -/
inductive ProgressResult where
  /-- Status 200 with the progress payload. -/
  | ok (p : ProgressPayload)
  /-- The generic except-branch of the handler: 500 with the exception message.
  With fewer than 2 scores the response expression reads the never-assigned
  local `first_score`, raising `NameError` inside the `try`. -/
  | internalError (status : Nat)
deriving DecidableEq, Repr

/-- Model of `get_user_progress`, applied to the `Score` rows of the caller
in chronological order of attempt (the handler orders the query by
`Score.time_stamp_of_attempt`). -/
def get_user_progress (scores : List Score) : ProgressResult :=
  match scores with
  | s0 :: s1 :: rest =>
    let first_score := s0.total_scored
    let last_score := (rest.getLastD s1).total_scored
    let improvement := last_score - first_score
    .ok ⟨(s0 :: s1 :: rest).length,
        roundHalfEven2 improvement,
        roundHalfEven2 (if first_score > 0 then improvement / first_score * 100 else 0)⟩
  | _ => .internalError 500

/-! ## Serialization mixin (`src/backend/models/serializer.py`) and the
`User.to_dict` override (`src/backend/models/database.py`, lines 65–68) -/

/-- A column value.  `vDateTime` stands for a Python `datetime` instance;
every other constructor is left untouched by serialization. -/
inductive Value where
  | vInt (n : Int)
  | vStr (s : String)
  | vBool (b : Bool)
  | vDateTime (t : Nat)
  | vNone
deriving DecidableEq, Repr

/-- Whether a value is a `datetime` (`isinstance(value, datetime)`). -/
def Value.isDateTime : Value → Bool
  | .vDateTime _ => true
  | _ => false

/-- Modelled from `datetime.isoformat()`: an injective rendering of the
abstract instant as text.  The claims never inspect the text itself. -/
def isoFormat (t : Nat) : String := toString t

/-- The per-column conversion `to_dict` applies: datetimes become their
ISO-8601 text, everything else passes through (serializer.py lines 56–58). -/
def serializeValue : Value → Value
  | .vDateTime t => .vStr (isoFormat t)
  | v => v

/-- Model of `SerializerMixin.to_dict` (serializer.py lines 32–76) over an entity
class with persisted columns `cols` and instance attribute map `inst`:
every column not in `exclude` is emitted (datetimes ISO-rendered), then
each requested relationship not in `exclude` is embedded with its
serialized value `relVal`. -/
def to_dict (cols : List String) (inst : String → Value)
    (exclude includeRels : List String) (relVal : String → Value) :
    List (String × Value) :=
  ((cols.filter (fun k => !(exclude.contains k))).map
    (fun k => (k, serializeValue (inst k))))
  ++ ((includeRels.filter (fun r => !(exclude.contains r))).map
    (fun r => (r, relVal r)))

/-- Model of `SerializerMixin.from_dict` (serializer.py lines 91–102): keep only the
keys that name persisted columns and build an unsaved instance from them;
columns absent from the map are left unset. -/
def from_dict (cols : List String) (data : List (String × Value)) :
    List (String × Value) :=
  data.filter (fun kv => cols.contains kv.1)

/-- The attribute an unsaved reconstructed instance carries for a column:
the first matching entry, or unset (`none`). -/
def getAttr (attrs : List (String × Value)) (k : String) : Option Value :=
  List.lookup k attrs

/-- The Python idiom `exclude or [password-default]` in `User.to_dict`: `None` and the
empty list are falsy and fall back to the default; any non-empty list is
used as supplied. -/
def pyOrDefault (o : Option (List String)) (d : List String) : List String :=
  match o with
  | some (x :: xs) => x :: xs
  | _ => d

/-- The persisted columns of `User` (database.py lines 35–47). -/
def userCols : List String :=
  ["id", "username", "password", "full_name", "email", "qualification",
   "dob", "report_format", "is_active", "email_notifications",
   "created_at", "updated_at"]

/-- A `User` row (the fields the serialization claims touch; optional
columns are `vNone` when unset). -/
structure UserRow where
  id : Nat
  username : String
  password : String
  full_name : String
  email : Value
  qualification : Value
  dob : Value
  report_format : String
  is_active : Bool
  email_notifications : Bool
  created_at : Nat
  updated_at : Nat
deriving DecidableEq, Repr

/-- The attribute map of a `User` instance. -/
def userAttr (u : UserRow) : String → Value
  | "id" => .vInt u.id
  | "username" => .vStr u.username
  | "password" => .vStr u.password
  | "full_name" => .vStr u.full_name
  | "email" => u.email
  | "qualification" => u.qualification
  | "dob" => u.dob
  | "report_format" => .vStr u.report_format
  | "is_active" => .vBool u.is_active
  | "email_notifications" => .vBool u.email_notifications
  | "created_at" => .vDateTime u.created_at
  | "updated_at" => .vDateTime u.updated_at
  | _ => .vNone

/-- Model of `User.to_dict` (database.py lines 65–68): replace the exclude list by
the password-only default list when it is falsy, then delegate to the
mixin. -/
def user_to_dict (u : UserRow) (exclude : Option (List String))
    (includeRels : List String) (relVal : String → Value) :
    List (String × Value) :=
  to_dict userCols (userAttr u) (pyOrDefault exclude ["password"]) includeRels relVal

/-! ## Theorems -/

/-- C1: for every quiz with `N ≥ 1` questions and every submitted answer
map, v2 attempt submission computes the percentage as
(number of questions whose submitted option equals `correct_option`) / N
× 100 and persists exactly one new `Score` row whose `total_scored` is that
percentage; an empty answer map yields 0%, an all-correct map yields
100%. -/
theorem c1_v2_scoring (db : DB) (uid qid : Nat) (ans : List (Nat × Int))
    (now sid : Nat) (questions : List Question) (pct : ℚ)
    (hquestions : questions = db.questions.filter (fun q => q.quiz_id == qid))
    (hq : (db.quizzes.find? (fun q => q.id == qid)).isSome = true)
    (hns : db.scores.find? (fun s => s.user_id == uid && s.quiz_id == qid) = none)
    (hN : 1 ≤ questions.length)
    (hpct : pct = (countCorrect questions ans : ℚ) / (questions.length : ℚ) * 100) :
    submit_quiz_attempt db uid qid (some ans) now sid =
      (.success questions.length (countCorrect questions ans) pct sid,
       { db with scores := db.scores ++ [⟨sid, uid, qid, pct, now⟩] })
    ∧ (ans = [] → pct = 0)
    ∧ ((∀ q ∈ questions, lookupAnswer ans q.id = some q.correct_option) → pct = 100) := by
  obtain ⟨qz, hq'⟩ := Option.isSome_iff_exists.mp hq
  have hne : questions.isEmpty = false := by
    cases questions with
    | nil => simp at hN
    | cons a t => rfl
  have hpos : 0 < questions.length := hN
  refine ⟨?_, ?_, ?_⟩
  · simp only [submit_quiz_attempt, hq', hns, ← hquestions, hne, Bool.false_eq_true,
      if_false, hpos, if_pos, hpct]
  · intro hans
    have hc : countCorrect questions ans = 0 := by
      simp [countCorrect, hans, lookupAnswer]
    simp [hpct, hc]
  · intro hall
    have hc : countCorrect questions ans = questions.length := by
      apply List.countP_eq_length.mpr
      intro q hqmem
      simp [hall q hqmem]
    have hnz : (questions.length : ℚ) ≠ 0 := by
      exact_mod_cast Nat.pos_iff_ne_zero.mp hpos
    rw [hpct, hc, div_self hnz, one_mul]

/-- Witness for C1: a 1-question quiz answered correctly scores 100% and
persists a `Score` row with `total_scored = 100`. -/
theorem c1_v2_scoring_witness :
    submit_quiz_attempt ⟨[], [], [⟨1, 1⟩], [⟨10, 2, 1⟩], []⟩ 7 1 (some [(10, 2)]) 5 3 =
      (.success 1 1 100 3, ⟨[], [], [⟨1, 1⟩], [⟨10, 2, 1⟩], [⟨3, 7, 1, 100, 5⟩]⟩) := by
  have h := (c1_v2_scoring ⟨[], [], [⟨1, 1⟩], [⟨10, 2, 1⟩], []⟩ 7 1 [(10, 2)] 5 3
      [⟨10, 2, 1⟩] 100 rfl rfl rfl (by decide)
      (by norm_num [show countCorrect [⟨10, 2, 1⟩] [(10, 2)] = 1 from by decide])).1
  exact h.trans (by decide)

/-- C2: when a `(user, quiz)` pair already has a `Score` row, the v2
submission returns the 400 error carrying the existing score value and
attempt date and leaves the database unchanged, while the legacy v1
`submit_quiz` inserts a second `Score` row for the same pair. -/
theorem c2_duplicate_attempt_guard :
    (∀ (db : DB) (uid qid : Nat) (ans : List (Nat × Int)) (now sid : Nat) (s : Score),
      (db.quizzes.find? (fun q => q.id == qid)).isSome = true →
      db.scores.find? (fun s' => s'.user_id == uid && s'.quiz_id == qid) = some s →
      submit_quiz_attempt db uid qid (some ans) now sid =
        (.alreadyAttempted s.total_scored s.time_stamp_of_attempt, db) ∧
      (SubmitV2Result.alreadyAttempted s.total_scored s.time_stamp_of_attempt).status = 400) ∧
    (∀ (db : DB) (uid qid : Nat) (ans : List (Nat × String)) (now sid : Nat) (s : Score),
      s ∈ db.scores → s.user_id = uid → s.quiz_id = qid →
      (submit_quiz db uid qid ans now sid).2.scores.length = db.scores.length + 1 ∧
      s ∈ (submit_quiz db uid qid ans now sid).2.scores ∧
      ∃ t : Score, t.user_id = uid ∧ t.quiz_id = qid ∧
        (submit_quiz db uid qid ans now sid).2.scores = db.scores ++ [t]) := by
  constructor
  · intro db uid qid ans now sid s hq hs
    obtain ⟨qz, hq'⟩ := Option.isSome_iff_exists.mp hq
    exact ⟨by simp only [submit_quiz_attempt, hq', hs], rfl⟩
  · intro db uid qid ans now sid s hmem hu hqz
    refine ⟨by simp [submit_quiz], by simp [submit_quiz, hmem], ?_⟩
    exact ⟨⟨sid, uid, qid, (submit_quiz db uid qid ans now sid).1, now⟩, rfl, rfl, rfl⟩

/-- Witness for C2: user 7 already holds score 50 on quiz 1; the v2 resubmit
returns the existing score unchanged while the v1 path duplicates the row. -/
theorem c2_duplicate_attempt_guard_witness :
    (submit_quiz_attempt ⟨[], [], [⟨1, 1⟩], [⟨10, 2, 1⟩], [⟨3, 7, 1, 50, 5⟩]⟩ 7 1
        (some [(10, 2)]) 9 4 =
      (.alreadyAttempted 50 5, ⟨[], [], [⟨1, 1⟩], [⟨10, 2, 1⟩], [⟨3, 7, 1, 50, 5⟩]⟩)) ∧
    (submit_quiz ⟨[], [], [⟨1, 1⟩], [⟨10, 2, 1⟩], [⟨3, 7, 1, 50, 5⟩]⟩ 7 1
        [(10, "2")] 9 4).2.scores.length = 2 := by
  constructor
  · exact (c2_duplicate_attempt_guard.1 ⟨[], [], [⟨1, 1⟩], [⟨10, 2, 1⟩], [⟨3, 7, 1, 50, 5⟩]⟩
      7 1 [(10, 2)] 9 4 ⟨3, 7, 1, 50, 5⟩ rfl rfl).1
  · exact (c2_duplicate_attempt_guard.2 ⟨[], [], [⟨1, 1⟩], [⟨10, 2, 1⟩], [⟨3, 7, 1, 50, 5⟩]⟩
      7 1 [(10, "2")] 9 4 ⟨3, 7, 1, 50, 5⟩ (by decide) rfl rfl).1

/-- C3: deleting a `Subject` owning a `Chapter`, a `Chapter` owning a
`Quiz`, or a `Quiz` holding a `Score` is rejected with a 400 error and
changes nothing; deleting one with no such children succeeds with 200 and
removes exactly that one row, leaving every other table untouched. -/
theorem c3_delete_guards :
    (∀ (db : DB) (sid : Nat), (db.subjects.find? (fun s => s.id == sid)).isSome = true →
      (subjectChapters db sid ≠ [] →
        delete_subject db sid = (.conflict, db) ∧ DeleteResult.conflict.status = 400) ∧
      (subjectChapters db sid = [] →
        (delete_subject db sid).1 = .deleted ∧ DeleteResult.deleted.status = 200 ∧
        (delete_subject db sid).2.subjects.length + 1 = db.subjects.length ∧
        List.Sublist (delete_subject db sid).2.subjects db.subjects ∧
        (delete_subject db sid).2.chapters = db.chapters ∧
        (delete_subject db sid).2.quizzes = db.quizzes ∧
        (delete_subject db sid).2.questions = db.questions ∧
        (delete_subject db sid).2.scores = db.scores)) ∧
    (∀ (db : DB) (cid : Nat), (db.chapters.find? (fun c => c.id == cid)).isSome = true →
      (chapterQuizzes db cid ≠ [] →
        delete_chapter db cid = (.conflict, db) ∧ DeleteResult.conflict.status = 400) ∧
      (chapterQuizzes db cid = [] →
        (delete_chapter db cid).1 = .deleted ∧ DeleteResult.deleted.status = 200 ∧
        (delete_chapter db cid).2.chapters.length + 1 = db.chapters.length ∧
        List.Sublist (delete_chapter db cid).2.chapters db.chapters ∧
        (delete_chapter db cid).2.subjects = db.subjects ∧
        (delete_chapter db cid).2.quizzes = db.quizzes ∧
        (delete_chapter db cid).2.questions = db.questions ∧
        (delete_chapter db cid).2.scores = db.scores)) ∧
    (∀ (db : DB) (qid : Nat), (db.quizzes.find? (fun q => q.id == qid)).isSome = true →
      (quizScores db qid ≠ [] →
        delete_quiz db qid = (.conflict, db) ∧ DeleteResult.conflict.status = 400) ∧
      (quizScores db qid = [] →
        (delete_quiz db qid).1 = .deleted ∧ DeleteResult.deleted.status = 200 ∧
        (delete_quiz db qid).2.quizzes.length + 1 = db.quizzes.length ∧
        List.Sublist (delete_quiz db qid).2.quizzes db.quizzes ∧
        (delete_quiz db qid).2.subjects = db.subjects ∧
        (delete_quiz db qid).2.chapters = db.chapters ∧
        (delete_quiz db qid).2.questions = db.questions ∧
        (delete_quiz db qid).2.scores = db.scores)) := by
  refine ⟨?_, ?_, ?_⟩
  · intro db sid hfind
    obtain ⟨x, hx⟩ := Option.isSome_iff_exists.mp hfind
    have hxmem := List.mem_of_find?_eq_some hx
    have hxp := List.find?_some hx
    constructor
    · intro hne
      have : (subjectChapters db sid).isEmpty = false := by
        cases h : subjectChapters db sid with
        | nil => exact absurd h hne
        | cons a t => rfl
      exact ⟨by simp only [delete_subject, hx, this, Bool.false_eq_true, if_false], rfl⟩
    · intro hemp
      have hie : (subjectChapters db sid).isEmpty = true := by simp [hemp]
      have hres : delete_subject db sid =
          (.deleted, { db with subjects := db.subjects.eraseP (fun s => s.id == sid) }) := by
        simp only [delete_subject, hx, hie, if_true]
      rw [hres]
      refine ⟨rfl, rfl, ?_, List.eraseP_sublist db.subjects, rfl, rfl, rfl, rfl⟩
      have hlen : (db.subjects.eraseP (fun s => s.id == sid)).length = db.subjects.length - 1 :=
        List.length_eraseP_of_mem hxmem hxp
      have hpos : 0 < db.subjects.length := List.length_pos_of_mem hxmem
      show (db.subjects.eraseP (fun s => s.id == sid)).length + 1 = db.subjects.length
      omega
  · intro db cid hfind
    obtain ⟨x, hx⟩ := Option.isSome_iff_exists.mp hfind
    have hxmem := List.mem_of_find?_eq_some hx
    have hxp := List.find?_some hx
    constructor
    · intro hne
      have : (chapterQuizzes db cid).isEmpty = false := by
        cases h : chapterQuizzes db cid with
        | nil => exact absurd h hne
        | cons a t => rfl
      exact ⟨by simp only [delete_chapter, hx, this, Bool.false_eq_true, if_false], rfl⟩
    · intro hemp
      have hie : (chapterQuizzes db cid).isEmpty = true := by simp [hemp]
      have hres : delete_chapter db cid =
          (.deleted, { db with chapters := db.chapters.eraseP (fun c => c.id == cid) }) := by
        simp only [delete_chapter, hx, hie, if_true]
      rw [hres]
      refine ⟨rfl, rfl, ?_, List.eraseP_sublist db.chapters, rfl, rfl, rfl, rfl⟩
      have hlen : (db.chapters.eraseP (fun c => c.id == cid)).length = db.chapters.length - 1 :=
        List.length_eraseP_of_mem hxmem hxp
      have hpos : 0 < db.chapters.length := List.length_pos_of_mem hxmem
      show (db.chapters.eraseP (fun c => c.id == cid)).length + 1 = db.chapters.length
      omega
  · intro db qid hfind
    obtain ⟨x, hx⟩ := Option.isSome_iff_exists.mp hfind
    have hxmem := List.mem_of_find?_eq_some hx
    have hxp := List.find?_some hx
    constructor
    · intro hne
      have : (quizScores db qid).isEmpty = false := by
        cases h : quizScores db qid with
        | nil => exact absurd h hne
        | cons a t => rfl
      exact ⟨by simp only [delete_quiz, hx, this, Bool.false_eq_true, if_false], rfl⟩
    · intro hemp
      have hie : (quizScores db qid).isEmpty = true := by simp [hemp]
      have hres : delete_quiz db qid =
          (.deleted, { db with quizzes := db.quizzes.eraseP (fun q => q.id == qid) }) := by
        simp only [delete_quiz, hx, hie, if_true]
      rw [hres]
      refine ⟨rfl, rfl, ?_, List.eraseP_sublist db.quizzes, rfl, rfl, rfl, rfl⟩
      have hlen : (db.quizzes.eraseP (fun q => q.id == qid)).length = db.quizzes.length - 1 :=
        List.length_eraseP_of_mem hxmem hxp
      have hpos : 0 < db.quizzes.length := List.length_pos_of_mem hxmem
      show (db.quizzes.eraseP (fun q => q.id == qid)).length + 1 = db.quizzes.length
      omega

/-- Witness for C3: in a database with one subject owning one chapter that
owns one empty quiz, deleting the subject is rejected while deleting the
quiz succeeds. -/
theorem c3_delete_guards_witness :
    (delete_subject ⟨[⟨1, "s", "d"⟩], [⟨2, "c", 1⟩], [⟨3, 2⟩], [], []⟩ 1 =
      (.conflict, ⟨[⟨1, "s", "d"⟩], [⟨2, "c", 1⟩], [⟨3, 2⟩], [], []⟩)) ∧
    (delete_quiz ⟨[⟨1, "s", "d"⟩], [⟨2, "c", 1⟩], [⟨3, 2⟩], [], []⟩ 3).1 = .deleted := by
  constructor
  · exact ((c3_delete_guards.1 ⟨[⟨1, "s", "d"⟩], [⟨2, "c", 1⟩], [⟨3, 2⟩], [], []⟩ 1
      rfl).1 (by decide)).1
  · exact ((c3_delete_guards.2.2 ⟨[⟨1, "s", "d"⟩], [⟨2, "c", 1⟩], [⟨3, 2⟩], [], []⟩ 3
      rfl).2 (by decide)).1

/-- Accounting for the CSV-import loop: every data row yields exactly one
outcome (an imported subject or one error string), the session-visible subject table only
grows by the imported rows, and a row at 0-based offset `i` with a missing
name contributes the error for row number `rowNum + i`. -/
theorem importSubjectRows_spec (rows : List CsvRow) :
    ∀ (subs : List Subject) (rowNum nextId : Nat),
      (importSubjectRows subs rowNum nextId rows).1
          + (importSubjectRows subs rowNum nextId rows).2.1.length = rows.length ∧
      subs <+: (importSubjectRows subs rowNum nextId rows).2.2 ∧
      (importSubjectRows subs rowNum nextId rows).2.2.length
          = subs.length + (importSubjectRows subs rowNum nextId rows).1 ∧
      ∀ i (h : i < rows.length), rowHasName (rows.get ⟨i, h⟩) = false →
        rowNameError (rowNum + i) ∈ (importSubjectRows subs rowNum nextId rows).2.1 := by
  induction rows with
  | nil =>
    intro subs rowNum nextId
    exact ⟨rfl, ⟨[], List.append_nil _⟩, rfl, fun i h => by simp at h⟩
  | cons r rest ih =>
    intro subs rowNum nextId
    cases hr : r.name with
    | none =>
      obtain ⟨ih1, ih2, ih3, ih4⟩ := ih subs (rowNum + 1) nextId
      simp only [importSubjectRows, hr]
      refine ⟨by simpa using by omega, ih2, ih3, ?_⟩
      intro i h hname
      match i with
      | 0 => simp
      | j + 1 =>
        have := ih4 j (by simpa using h) (by simpa using hname)
        simpa [Nat.add_comm, Nat.add_assoc, Nat.add_left_comm] using Or.inr this
    | some nm =>
      by_cases hnm : nm = ""
      · obtain ⟨ih1, ih2, ih3, ih4⟩ := ih subs (rowNum + 1) nextId
        simp only [importSubjectRows, hr, hnm, if_pos rfl]
        refine ⟨by simpa using by omega, ih2, ih3, ?_⟩
        intro i h hname
        match i with
        | 0 => simp
        | j + 1 =>
          have := ih4 j (by simpa using h) (by simpa using hname)
          simpa [Nat.add_comm, Nat.add_assoc, Nat.add_left_comm] using Or.inr this
      · by_cases hdup : (subs.find? (fun s => s.name == nm)).isSome = true
        · obtain ⟨ih1, ih2, ih3, ih4⟩ := ih subs (rowNum + 1) nextId
          simp only [importSubjectRows, hr, if_neg hnm, hdup, if_pos]
          refine ⟨by simpa using by omega, ih2, ih3, ?_⟩
          intro i h hname
          match i with
          | 0 => simp [rowHasName, hr, hnm] at hname
          | j + 1 =>
            have := ih4 j (by simpa using h) (by simpa using hname)
            simpa [Nat.add_comm, Nat.add_assoc, Nat.add_left_comm] using Or.inr this
        · obtain ⟨ih1, ih2, ih3, ih4⟩ :=
            ih (subs ++ [⟨nextId, nm, (r.description).getD ""⟩]) (rowNum + 1) (nextId + 1)
          simp only [importSubjectRows, hr, if_neg hnm, hdup, Bool.false_eq_true, if_false]
          refine ⟨by simpa using by omega,
            (show subs <+: subs ++ [⟨nextId, nm, (r.description).getD ""⟩] from
              ⟨_, rfl⟩).trans ih2,
            by simp at ih3 ⊢; omega, ?_⟩
          intro i h hname
          match i with
          | 0 => simp [rowHasName, hr, hnm] at hname
          | j + 1 =>
            have := ih4 j (by simpa using h) (by simpa using hname)
            simpa [Nat.add_comm, Nat.add_assoc, Nat.add_left_comm] using this

/-- C4: every uploaded data row (numbered from 2; row 1 is the header)
yields exactly one outcome — an imported subject or one `"Row N: <reason>"`
error string — and the batch never aborts: the committed subject table is
the old one extended by exactly the imported rows, no other table changes,
and a row at offset `i` missing its name contributes the error for row
`2 + i`.  Concretely, a 5-row CSV whose row 3 lacks a name imports 4
subjects with exactly one error referencing row 3. -/
theorem c4_csv_import :
    (∀ (db : DB) (rows : List CsvRow) (nextId : Nat),
      (import_subjects_csv db rows nextId).1.1
          + (import_subjects_csv db rows nextId).1.2.length = rows.length ∧
      db.subjects <+: (import_subjects_csv db rows nextId).2.subjects ∧
      (import_subjects_csv db rows nextId).2.subjects.length
          = db.subjects.length + (import_subjects_csv db rows nextId).1.1 ∧
      (import_subjects_csv db rows nextId).2.chapters = db.chapters ∧
      (import_subjects_csv db rows nextId).2.quizzes = db.quizzes ∧
      (import_subjects_csv db rows nextId).2.questions = db.questions ∧
      (import_subjects_csv db rows nextId).2.scores = db.scores ∧
      (∀ i (h : i < rows.length), rowHasName (rows.get ⟨i, h⟩) = false →
        rowNameError (2 + i) ∈ (import_subjects_csv db rows nextId).1.2)) ∧
    import_subjects_csv DB.empty
      [⟨some "Algebra", none⟩, ⟨none, none⟩, ⟨some "Geometry", none⟩,
       ⟨some "Calculus", none⟩, ⟨some "Statistics", none⟩] 1 =
      ((4, ["Row 3: Subject name is required"]),
       ⟨[⟨1, "Algebra", ""⟩, ⟨2, "Geometry", ""⟩, ⟨3, "Calculus", ""⟩,
         ⟨4, "Statistics", ""⟩], [], [], [], []⟩) := by
  constructor
  · intro db rows nextId
    obtain ⟨h1, h2, h3, h4⟩ := importSubjectRows_spec rows db.subjects 2 nextId
    exact ⟨h1, h2, h3, rfl, rfl, rfl, rfl, h4⟩
  · decide

/-- Witness for C4: in the concrete 5-row import, the nameless second data
row (row number 3) contributes its per-row error string. -/
theorem c4_csv_import_witness :
    rowNameError 3 ∈ (import_subjects_csv DB.empty
      [⟨some "Algebra", none⟩, ⟨none, none⟩, ⟨some "Geometry", none⟩,
       ⟨some "Calculus", none⟩, ⟨some "Statistics", none⟩] 1).1.2 := by
  have h := (c4_csv_import.1 DB.empty
      [⟨some "Algebra", none⟩, ⟨none, none⟩, ⟨some "Geometry", none⟩,
       ⟨some "Calculus", none⟩, ⟨some "Statistics", none⟩] 1).2.2.2.2.2.2.2
      1 (by decide) (by decide)
  simpa using h

/-- C5: a bearer token is extracted exactly when the `Authorization` header
splits into two whitespace-separated parts whose first part is `Bearer`
case-insensitively; under `jwt_required`, any other shape (or no header)
yields 401 "Missing authorization token", an expired signature yields 401
"Token has expired", and any other decode failure yields 401
"Invalid token". -/
theorem c5_token_guard :
    (∀ (h t : String),
      get_token_from_request (some h) = some t ↔
        ∃ p0, pySplit h = [p0, t] ∧ pyLower p0 = "bearer") ∧
    get_token_from_request none = none ∧
    (∀ (ah : Option String) (d : String → DecodeOutcome),
      get_token_from_request ah = none →
      jwt_required ah d = .err 401 "Missing authorization token") ∧
    (∀ (ah : Option String) (d : String → DecodeOutcome) (t : String),
      get_token_from_request ah = some t → d t = .expired →
      jwt_required ah d = .err 401 "Token has expired") ∧
    (∀ (ah : Option String) (d : String → DecodeOutcome) (t : String),
      get_token_from_request ah = some t → d t = .invalid →
      jwt_required ah d = .err 401 "Invalid token") := by
  refine ⟨?_, rfl, ?_, ?_, ?_⟩
  · intro h t
    constructor
    · intro hget
      simp only [get_token_from_request] at hget
      split at hget
      · exact absurd hget (by simp)
      · split at hget
        · next p0 p1 heq =>
          split at hget
          · next hlow =>
            exact ⟨p0, by rw [heq, Option.some_inj.mp hget], by simpa using hlow⟩
          · exact absurd hget (by simp)
        · exact absurd hget (by simp)
    · rintro ⟨p0, hsplit, hlow⟩
      have hne : ¬(h == "") = true := by
        intro he
        rw [show h = "" from by simpa using he] at hsplit
        rw [show pySplit "" = [] from rfl] at hsplit
        simp at hsplit
      simp only [get_token_from_request, if_neg hne, hsplit, hlow]
      simp
  · intro ah d hget
    simp only [jwt_required, hget]
  · intro ah d t hget hdec
    simp only [jwt_required, hget, hdec]
  · intro ah d t hget hdec
    simp only [jwt_required, hget, hdec]

/-- Witness for C5: a malformed header is rejected as missing, a two-part
case-insensitive bearer header is extracted, and the expired/invalid decode
outcomes map to their messages. -/
theorem c5_token_guard_witness :
    jwt_required (some "Token abc") (fun _ => .invalid) =
      .err 401 "Missing authorization token" ∧
    jwt_required (some "bEaReR abc") (fun _ => .expired) =
      .err 401 "Token has expired" ∧
    jwt_required (some "Bearer abc") (fun _ => .invalid) =
      .err 401 "Invalid token" ∧
    jwt_required none (fun _ => .invalid) =
      .err 401 "Missing authorization token" := by
  refine ⟨?_, ?_, ?_, ?_⟩
  · exact c5_token_guard.2.2.1 (some "Token abc") (fun _ => .invalid) (by decide)
  · exact c5_token_guard.2.2.2.1 (some "bEaReR abc") (fun _ => .expired) "abc"
      (by decide) rfl
  · exact c5_token_guard.2.2.2.2 (some "Bearer abc") (fun _ => .invalid) "abc"
      (by decide) rfl
  · exact c5_token_guard.2.2.1 none (fun _ => .invalid) rfl

/-- Counterexample to C6 as stated: the v2 handler rejects a submission for
a nonexistent quiz — and one for a quiz without questions — with HTTP 404,
not 400 ("Quiz not found" / "No questions found for this quiz" are both
returned with status 404 in quiz.py lines 229 and 244). -/
theorem c6_counterexample :
    (submit_quiz_attempt DB.empty 1 1 (some []) 0 0).1.status = 404 ∧
    ¬(submit_quiz_attempt DB.empty 1 1 (some []) 0 0).1.status = 400 ∧
    (submit_quiz_attempt ⟨[], [], [⟨1, 1⟩], [], []⟩ 1 1 (some []) 0 0).1.status = 404 ∧
    ¬(submit_quiz_attempt ⟨[], [], [⟨1, 1⟩], [], []⟩ 1 1 (some []) 0 0).1.status = 400 := by
  decide

/-- C6 (amended): the v2 attempt-submission operation rejects with HTTP
status 404 — not 400 — both when the requested quiz id does not exist and
when the quiz has no questions, in each case leaving the database (so in
particular the `Score` table) unchanged. -/
theorem c6_amended_reject_statuses (db : DB) (uid qid : Nat)
    (ans : List (Nat × Int)) (now sid : Nat) :
    (db.quizzes.find? (fun q => q.id == qid) = none →
      submit_quiz_attempt db uid qid (some ans) now sid = (.quizNotFound, db) ∧
      SubmitV2Result.quizNotFound.status = 404) ∧
    ((db.quizzes.find? (fun q => q.id == qid)).isSome = true →
      db.scores.find? (fun s => s.user_id == uid && s.quiz_id == qid) = none →
      db.questions.filter (fun q => q.quiz_id == qid) = [] →
      submit_quiz_attempt db uid qid (some ans) now sid = (.noQuestions, db) ∧
      SubmitV2Result.noQuestions.status = 404) := by
  constructor
  · intro hnone
    exact ⟨by simp only [submit_quiz_attempt, hnone], rfl⟩
  · intro hq hns hqs
    obtain ⟨qz, hq'⟩ := Option.isSome_iff_exists.mp hq
    refine ⟨?_, rfl⟩
    simp only [submit_quiz_attempt, hq', hns, hqs, List.isEmpty_nil, if_true]

/-- Witness for the amended C6: both 404 rejections at concrete inputs. -/
theorem c6_amended_reject_statuses_witness :
    submit_quiz_attempt DB.empty 1 1 (some []) 0 0 = (.quizNotFound, DB.empty) ∧
    submit_quiz_attempt ⟨[], [], [⟨1, 1⟩], [], []⟩ 1 1 (some []) 0 0 =
      (.noQuestions, ⟨[], [], [⟨1, 1⟩], [], []⟩) := by
  constructor
  · exact ((c6_amended_reject_statuses DB.empty 1 1 [] 0 0).1 rfl).1
  · exact ((c6_amended_reject_statuses ⟨[], [], [⟨1, 1⟩], [], []⟩ 1 1 [] 0 0).2
      rfl rfl rfl).1

/-- C7 is a code bug: `invalidate_model_cache` only flushes keys matching
`view:*…*` glob patterns, but every key the `cached_response` decorator
actually creates starts with the call-site prefixes `quiz:`, `dashboard:`
or `leaderboard:` (the `view` default is never used), so invalidation
removes nothing — in particular the cached dashboard entry survives and a
subsequent dashboard read still hits it — while keys under the unused
`view:` prefix *would* be flushed. -/
theorem c7_invalidate_misses_cache :
    cachedResponseKey "dashboard" "get_user_quiz_dashboard" [] [] [] =
      "dashboard:get_user_quiz_dashboard" ∧
    cachedResponseKey "quiz" "get_subjects" [] [] [] = "quiz:get_subjects" ∧
    invalidate_model_cache
      ["dashboard:get_user_quiz_dashboard", "quiz:get_subjects"] "quiz" (some 5) =
      ["dashboard:get_user_quiz_dashboard", "quiz:get_subjects"] ∧
    invalidate_model_cache
      ["dashboard:get_user_quiz_dashboard", "quiz:get_subjects"] "dashboard" none =
      ["dashboard:get_user_quiz_dashboard", "quiz:get_subjects"] ∧
    "dashboard:get_user_quiz_dashboard" ∈
      invalidate_model_cache
        ["dashboard:get_user_quiz_dashboard", "quiz:get_subjects"] "quiz" (some 5) ∧
    invalidate_model_cache ["view:get_user_quiz_dashboard"] "quiz" none = [] := by
  decide

/-- Rounding to two decimals is the identity on integer values. -/
theorem roundHalfEven2_intCast (n : ℤ) : roundHalfEven2 ((n : ℚ)) = (n : ℚ) := by
  have h1 : ((n : ℚ) * 100) = (((n * 100 : ℤ) : ℚ)) := by push_cast; ring
  simp only [roundHalfEven2, h1, Int.floor_intCast, sub_self]
  norm_num

/-- C8: with at least 2 scores the progress handler returns the payload
whose improvement is (last − first), rounded to 2 decimals, and whose
improvement percentage is relative to the first score; with fewer than 2
scores the response expression still references the never-assigned
`first_score`, so the handler faults (500) instead of returning the
progress payload — in particular on an empty or single-entry history. -/
theorem c8_progress_improvement :
    (∀ (scores : List Score) (d : Score), 2 ≤ scores.length →
      get_user_progress scores = .ok ⟨scores.length,
        roundHalfEven2
          ((scores.getLastD d).total_scored - (scores.headD d).total_scored),
        roundHalfEven2
          (if (scores.headD d).total_scored > 0 then
            ((scores.getLastD d).total_scored - (scores.headD d).total_scored)
              / (scores.headD d).total_scored * 100
          else 0)⟩) ∧
    (∀ scores : List Score, scores.length < 2 →
      get_user_progress scores = .internalError 500) ∧
    get_user_progress [] = .internalError 500 := by
  refine ⟨?_, ?_, rfl⟩
  · intro scores d h2
    match scores with
    | [] => simp at h2
    | [s0] => simp at h2
    | s0 :: s1 :: rest =>
      simp only [get_user_progress, List.getLastD_cons, List.headD_cons]
  · intro scores hlt
    match scores with
    | [] => rfl
    | [s0] => rfl
    | s0 :: s1 :: rest => simp at hlt; omega

/-- Witness for C8: scores 50 then 80 give improvement 30 and improvement
percentage 60%, while empty and singleton histories fault. -/
theorem c8_progress_improvement_witness :
    get_user_progress [⟨1, 1, 1, 50, 0⟩, ⟨2, 1, 2, 80, 1⟩] = .ok ⟨2, 30, 60⟩ ∧
    get_user_progress [⟨1, 1, 1, 50, 0⟩] = .internalError 500 := by
  constructor
  · have h := c8_progress_improvement.1 [⟨1, 1, 1, 50, 0⟩, ⟨2, 1, 2, 80, 1⟩]
      ⟨0, 0, 0, 0, 0⟩ (by decide)
    rw [h]
    have e1 : ((80 : ℚ) - 50) = ((30 : ℤ) : ℚ) := by norm_num
    have e2 : (((80 : ℚ) - 50) / 50 * 100) = ((60 : ℤ) : ℚ) := by norm_num
    simp only [List.getLastD_cons, List.headD_cons]
    norm_num [e1, e2]
    constructor
    · rw [show (30 : ℚ) = ((30 : ℤ) : ℚ) from by norm_num]
      exact roundHalfEven2_intCast 30
    · rw [show (60 : ℚ) = ((60 : ℤ) : ℚ) from by norm_num]
      exact roundHalfEven2_intCast 60
  · exact c8_progress_improvement.2.1 [⟨1, 1, 1, 50, 0⟩] (by decide)

/-- Looking a key up in a map built from a key list with a value function
finds the value of the function exactly for listed keys. -/
theorem lookup_map_self (l : List String) (f : String → Value) (k : String) :
    List.lookup k (l.map (fun x => (x, f x))) = if k ∈ l then some (f k) else none := by
  induction l with
  | nil => rfl
  | cons a t ih =>
    by_cases hk : k = a
    · subst hk
      simp [List.lookup]
    · have hb : (k == a) = false := by simp [hk]
      simp only [List.lookup, hb, cond_false, ih]
      by_cases hm : k ∈ t <;> simp [hm, hk]

/-- A key held by no entry of an association list looks up to nothing. -/
theorem lookup_eq_none_of_forall_ne (l : List (String × Value)) (k : String)
    (h : ∀ kv ∈ l, kv.1 ≠ k) : List.lookup k l = none := by
  induction l with
  | nil => rfl
  | cons a t ih =>
    have hne : ¬(k == a.1) = true := by
      simp only [beq_iff_eq]
      exact fun hk => h a (List.mem_cons_self a t) hk.symm
    simp only [List.lookup, hne, Bool.false_eq_true, if_false, cond_false]
    exact ih fun kv hkv => h kv (List.mem_cons_of_mem a hkv)

/-- Serialization changes nothing but datetimes. -/
theorem serializeValue_eq_self (v : Value) (h : v.isDateTime = false) :
    serializeValue v = v := by
  cases v <;> simp_all [serializeValue, Value.isDateTime]

/-- C9: `to_dict` followed by `from_dict` (which keeps only persisted
columns) reconstructs an instance that agrees with the original — up to the
ISO rendering of datetime values, and exactly for non-datetime values — on
every column not excluded, while every excluded column is absent from the
produced map and therefore unset in the reconstruction. -/
theorem c9_serializer_roundtrip (cols : List String) (inst : String → Value)
    (exclude includeRels : List String) (relVal : String → Value)
    (hdisj : ∀ r ∈ includeRels, r ∉ cols) (k : String) :
    (k ∈ cols → k ∉ exclude →
      getAttr (from_dict cols (to_dict cols inst exclude includeRels relVal)) k
        = some (serializeValue (inst k)) ∧
      ((inst k).isDateTime = false →
        getAttr (from_dict cols (to_dict cols inst exclude includeRels relVal)) k
          = some (inst k))) ∧
    (k ∈ exclude →
      List.lookup k (to_dict cols inst exclude includeRels relVal) = none ∧
      getAttr (from_dict cols (to_dict cols inst exclude includeRels relVal)) k
        = none) := by
  set colPart := (cols.filter (fun c => !(exclude.contains c))).map
    (fun c => (c, serializeValue (inst c))) with hcol
  set relPart := (includeRels.filter (fun r => !(exclude.contains r))).map
    (fun r => (r, relVal r)) with hrel
  have hto : to_dict cols inst exclude includeRels relVal = colPart ++ relPart := rfl
  have hkeep : colPart.filter (fun kv => cols.contains kv.1) = colPart := by
    apply List.filter_eq_self.mpr
    intro kv hkv
    rw [hcol] at hkv
    obtain ⟨c, hc, hceq⟩ := List.mem_map.mp hkv
    have : c ∈ cols := (List.mem_filter.mp hc).1
    simpa [← hceq] using this
  have hdrop : relPart.filter (fun kv => cols.contains kv.1) = [] := by
    apply List.filter_eq_nil_iff.mpr
    intro kv hkv
    rw [hrel] at hkv
    obtain ⟨r, hrmem, hreq⟩ := List.mem_map.mp hkv
    have hrcols : r ∉ cols := hdisj r (List.mem_filter.mp hrmem).1
    simpa [← hreq] using hrcols
  have hfrom : from_dict cols (to_dict cols inst exclude includeRels relVal) = colPart := by
    rw [hto, from_dict, List.filter_append, hkeep, hdrop, List.append_nil]
  constructor
  · intro hkc hke
    have hmem : k ∈ cols.filter (fun c => !(exclude.contains c)) :=
      List.mem_filter.mpr ⟨hkc, by simpa using hke⟩
    have hlook : getAttr (from_dict cols (to_dict cols inst exclude includeRels relVal)) k
        = some (serializeValue (inst k)) := by
      rw [hfrom, hcol, getAttr, lookup_map_self, if_pos hmem]
    exact ⟨hlook, fun hdt => by rw [hlook, serializeValue_eq_self _ hdt]⟩
  · intro hke
    have hcolne : ∀ kv ∈ colPart, kv.1 ≠ k := by
      intro kv hkv
      rw [hcol] at hkv
      obtain ⟨c, hc, hceq⟩ := List.mem_map.mp hkv
      have hcex : ¬(exclude.contains c) = true := by simpa using (List.mem_filter.mp hc).2
      intro hkk
      have hck : c = k := by rw [← hceq] at hkk; exact hkk
      subst hck
      exact hcex (by simpa using hke)
    have hrelne : ∀ kv ∈ relPart, kv.1 ≠ k := by
      intro kv hkv
      rw [hrel] at hkv
      obtain ⟨r, hrmem, hreq⟩ := List.mem_map.mp hkv
      have hrex : ¬(exclude.contains r) = true := by simpa using (List.mem_filter.mp hrmem).2
      intro hkk
      have hrk : r = k := by rw [← hreq] at hkk; exact hkk
      subst hrk
      exact hrex (by simpa using hke)
    refine ⟨?_, ?_⟩
    · rw [hto]
      apply lookup_eq_none_of_forall_ne
      intro kv hkv
      rcases List.mem_append.mp hkv with hkv | hkv
      · exact hcolne kv hkv
      · exact hrelne kv hkv
    · rw [hfrom]
      exact lookup_eq_none_of_forall_ne _ _ hcolne

/-- Witness for C9: over columns `id`/`password` with `password` excluded,
the round trip restores `id` exactly and leaves `password` absent from both
the map and the reconstruction. -/
theorem c9_serializer_roundtrip_witness :
    getAttr (from_dict ["id", "password"]
        (to_dict ["id", "password"]
          (fun c => if c = "id" then .vInt 1 else .vStr "h")
          ["password"] [] (fun _ => .vNone))) "id" = some (.vInt 1) ∧
    List.lookup "password"
        (to_dict ["id", "password"]
          (fun c => if c = "id" then .vInt 1 else .vStr "h")
          ["password"] [] (fun _ => .vNone)) = none ∧
    getAttr (from_dict ["id", "password"]
        (to_dict ["id", "password"]
          (fun c => if c = "id" then .vInt 1 else .vStr "h")
          ["password"] [] (fun _ => .vNone))) "password" = none := by
  have h1 := (c9_serializer_roundtrip ["id", "password"]
      (fun c => if c = "id" then .vInt 1 else .vStr "h")
      ["password"] [] (fun _ => .vNone) (by simp) "id").1
      (by decide) (by decide)
  have h2 := (c9_serializer_roundtrip ["id", "password"]
      (fun c => if c = "id" then .vInt 1 else .vStr "h")
      ["password"] [] (fun _ => .vNone) (by simp) "password").2
      (by decide)
  exact ⟨by simpa using h1.2 (by decide), h2.1, h2.2⟩

/-- C10: `User.to_dict` excludes the password only when the caller passes
no exclude list (or an empty one); any non-empty exclude list that does not
itself contain `"password"` replaces the default, so the produced map then
carries the stored password hash under the `"password"` key. -/
theorem c10_user_exclude_replaces_default :
    (∀ (u : UserRow) (x : String) (xs : List String) (relVal : String → Value),
      "password" ∉ x :: xs →
      List.lookup "password" (user_to_dict u (some (x :: xs)) [] relVal)
        = some (.vStr u.password)) ∧
    (∀ (u : UserRow) (relVal : String → Value),
      List.lookup "password" (user_to_dict u none [] relVal) = none) ∧
    (∀ (u : UserRow) (relVal : String → Value),
      List.lookup "password" (user_to_dict u (some []) [] relVal) = none) := by
  refine ⟨?_, ?_, ?_⟩
  · intro u x xs relVal hnp
    have hform : user_to_dict u (some (x :: xs)) [] relVal =
        (userCols.filter (fun c => !((x :: xs).contains c))).map
          (fun c => (c, serializeValue (userAttr u c))) := by
      simp [user_to_dict, to_dict, pyOrDefault]
    rw [hform, lookup_map_self, if_pos]
    · rfl
    · exact List.mem_filter.mpr ⟨by decide, by simpa using hnp⟩
  · intro u relVal
    have hform : user_to_dict u none [] relVal =
        (userCols.filter (fun c => !((["password"] : List String).contains c))).map
          (fun c => (c, serializeValue (userAttr u c))) := by
      simp [user_to_dict, to_dict, pyOrDefault]
    rw [hform, lookup_map_self, if_neg]
    exact fun hmem => by simpa using (List.mem_filter.mp hmem).2
  · intro u relVal
    have hform : user_to_dict u (some []) [] relVal =
        (userCols.filter (fun c => !((["password"] : List String).contains c))).map
          (fun c => (c, serializeValue (userAttr u c))) := by
      simp [user_to_dict, to_dict, pyOrDefault]
    rw [hform, lookup_map_self, if_neg]
    exact fun hmem => by simpa using (List.mem_filter.mp hmem).2

/-- Witness for C10: excluding only `email` exposes the stored hash, while
the default and empty exclude lists hide it. -/
theorem c10_user_exclude_replaces_default_witness :
    List.lookup "password"
        (user_to_dict ⟨1, "alice", "hash", "Alice", .vNone, .vNone, .vNone,
          "html", true, true, 0, 0⟩ (some ["email"]) [] (fun _ => .vNone))
      = some (.vStr "hash") ∧
    List.lookup "password"
        (user_to_dict ⟨1, "alice", "hash", "Alice", .vNone, .vNone, .vNone,
          "html", true, true, 0, 0⟩ none [] (fun _ => .vNone)) = none ∧
    List.lookup "password"
        (user_to_dict ⟨1, "alice", "hash", "Alice", .vNone, .vNone, .vNone,
          "html", true, true, 0, 0⟩ (some []) [] (fun _ => .vNone)) = none := by
  refine ⟨?_, ?_, ?_⟩
  · exact c10_user_exclude_replaces_default.1
      ⟨1, "alice", "hash", "Alice", .vNone, .vNone, .vNone, "html", true, true, 0, 0⟩
      "email" [] (fun _ => .vNone) (by decide)
  · exact c10_user_exclude_replaces_default.2.1
      ⟨1, "alice", "hash", "Alice", .vNone, .vNone, .vNone, "html", true, true, 0, 0⟩
      (fun _ => .vNone)
  · exact c10_user_exclude_replaces_default.2.2
      ⟨1, "alice", "hash", "Alice", .vNone, .vNone, .vNone, "html", true, true, 0, 0⟩
      (fun _ => .vNone)

end QuizPlatform
